import Mathlib

/-!
Verification development for the core of the `opticalglass` package
(spectral line registry, optical media, dispersion and glass constants).

The Python modules `util.py`, `opticalmedium.py`, `buchdahl.py`,
`spectral_lines.py` and `glass.py` are not part of the source tree given
here; the tree carries the documentation transcripts (quickstart and
pandas-intro pages, two executed notebooks) that record the concrete
inputs and outputs of those functions, together with the class definitions
`ConstantIndex` and `ModelGlass` whose full Python source appears verbatim
in a notebook.  Definitions below are therefore of two kinds:

* translated from Python source present in the tree (`ConstantIndex`,
  `ModelGlass` and its methods), and
* modelled from the spec for the missing modules, corrected where the
  transcripts in the tree record actual outputs that pin the behaviour
  (each such definition carries a doc comment saying what is missing and
  which transcript values fix it).

Real arithmetic is embedded in `ℚ`; the Python floats of the transcripts
are carried as exact decimal literals.  Fallible operations return
`Except GlassError ℚ`.
-/

deriving instance DecidableEq for Except

namespace Opticalglass

/-- Modelled from the spec: the error taxonomy of section 7 (`glasserror.py`
is not under the source tree).  Only the constructors named by the claims
are used below. -/
inductive GlassError
  | unknownSpectralLine
  | wavelengthOutOfRange
  | unsupportedFormula
  | noMeasuredData
  | degenerateDispersion
  deriving DecidableEq

/-- A wavelength argument: either a numeric value in nanometers or a
spectral-line label, as accepted by `rindex` and `get_wavelength`. -/
inductive Token
  | wv (w : ℚ)
  | line (lbl : String)
  deriving DecidableEq

/-- Modelled from the spec: the spectral line table of `spectral_lines.py`
(not under the source tree).  The values for d, F, C are the nanometer
values the spec states; the value for D (589.2938) is the output of
`get_wavelength` recorded in a notebook in the tree; the remaining values
agree with the two-decimal wavelengths printed in the Hoya catalog column
headers reproduced in the pandas-intro page. -/
def spectra : List (String × ℚ) :=
  [("t", 1013.98), ("s", 852.11), ("r", 706.5188),
   ("C", 656.2725), ("C\x27", 643.8469), ("He-Ne", 632.8),
   ("D", 589.2938), ("d", 587.5618), ("e", 546.074),
   ("F", 486.1327), ("F\x27", 479.9914), ("g", 435.8343),
   ("h", 404.6561), ("i", 365.0146), ("A\x27", 768.2)]

/-- Modelled from the spec: `util.get_wavelength` (not under the source
tree) returns a numeric input unchanged and resolves a label through the
spectral line table; an unknown label fails (`UnknownSpectralLine` in the
taxonomy of the spec). -/
def get_wavelength : Token → Except GlassError ℚ
  | .wv w => .ok w
  | .line lbl =>
    match spectra.lookup lbl with
    | some w => .ok w
    | none => .error .unknownSpectralLine

/-- Modelled from the spec: `util.calc_glass_constants` (not under the
source tree).  The quickstart transcript in the tree records the outputs
`(64.1673362374998, 0.6923634296510195)` at the N-BK7 indices
`nd = 1.5168000345005885`, `nF = 1.5223762897312285`,
`nC = 1.5143223472613747`; the second output equals `(nF - nd)/(nF - nC)`
to all printed digits (and not `(nd - nC)/(nF - nC)`, which the same page
computes by hand as `0.30763657034898056`).  The glass-map notebook in the
tree likewise names the second returned array `PFd`.  The function is
therefore embedded as returning the pair `(vd, PFd)`. -/
def calc_glass_constants (nd nF nC : ℚ) : ℚ × ℚ :=
  let dFC := nF - nC
  let vd := (nd - 1) / dFC
  let PFd := (nF - nd) / dFC
  (vd, PFd)

/-- Modelled from the spec: `opticalmedium.glass_encode` (not under the
source tree).  The transcripts in the tree record the outputs
`(1.5168, 64.17) ↦ "517.642"`, `(1.517, 64.2) ↦ "517.642"`,
`(1.497, 81.6-ish vd) ↦ "497.816"` and `(1.51633, 64.1-ish vd) ↦ "516.641"`;
`517` from `1000 × 0.5168 = 516.8` forces rounding to the nearest integer,
not truncation. -/
def glass_encode (n v : ℚ) : String :=
  toString ⌊1000 * (n - 1) + 1/2⌋ ++ "." ++ toString ⌊10 * v + 1/2⌋

/-- Formalisation of the claim wording for `glass_code`, for comparison
with `glass_encode`: each scaled quantity truncated to an integer. -/
def glass_encode_truncated (n v : ℚ) : String :=
  toString ⌊1000 * (n - 1)⌋ ++ "." ++ toString ⌊10 * v⌋

/-! ### Buchdahl two-term dispersion model

`buchdahl.py` is not under the source tree; the model is built from the
spec, section 4.5: a quadratic chromatic-coordinate model
`n(λ) = n0 + ν1·ω + ν2·ω²` fitted from `(nd, vd)` by the standard Abbe
relation plus an assumed partial-dispersion default, through an exact 2×2
linear solve at the F and C lines.  The chromatic coordinate `ω` is the
Robb–Mercado form the spec cites, `ω(δλ) = δλ/(1 + 2.5 δλ)` with `δλ` in
micrometers from the d line. -/

/-- Modelled from the spec: the Buchdahl chromatic coordinate
(`buchdahl.omega`, not under the source tree), per the Robb–Mercado paper
the spec cites. -/
def omega (dl : ℚ) : ℚ := dl / (1 + (5/2) * dl)

/-- Wavelength of a spectral line in micrometers (`buchdahl.get_wv`,
modelled from the spec; not under the source tree). -/
def get_wv (lbl : String) : ℚ := ((spectra.lookup lbl).getD 0) / 1000

/-- Modelled from the spec: state of the quadratic Buchdahl model of
`buchdahl.py` (not under the source tree): reference wavelength `wv0` in
micrometers, reference index `rind0`, fitted coefficients `v1`, `v2`, and
the fixed chromatic coordinates `omF`, `omC` of the F and C fitting lines
set once at construction. -/
structure Buchdahl2 where
  wv0 : ℚ
  rind0 : ℚ
  v1 : ℚ
  v2 : ℚ
  omF : ℚ
  omC : ℚ
  deriving DecidableEq

/-- Modelled from the spec: the assumed partial-dispersion default used
when a Buchdahl model is built from `(nd, vd)` alone (section 4.5 names
the assumption but no numeric value; the claims proved below do not
depend on it).  The value chosen is the PCd the spec quotes for N-BK7. -/
def PCd_default : ℚ := 0.3076

/-- Modelled from the spec: the exact 2×2 linear solve of section 4.5.
From `(nd, vd)` the Abbe relation gives `nF - nC = (nd - 1)/vd`, the
assumed partial splits it into `nF - nd` and `nC - nd`, and the two
chromatic-coordinate equations `ν1·ω + ν2·ω² = n(ω) - nd` at the F and C
lines are solved by Cramer rule. -/
def buchdahl2_coefs (omF omC nd vd : ℚ) : ℚ × ℚ :=
  let dFC := (nd - 1) / vd
  let dF := (1 - PCd_default) * dFC
  let dC := -(PCd_default * dFC)
  let det := omF * omC ^ 2 - omC * omF ^ 2
  ((dF * omC ^ 2 - dC * omF ^ 2) / det, (omF * dC - omC * dF) / det)

/-- Modelled from the spec: `Buchdahl2.update_model` (not under the source
tree) re-derives `ν1`, `ν2` in place from new `(nd, vd)` and resets the
reference index to the new `nd`; the fitting-line coordinates are the
ones fixed at construction. -/
def Buchdahl2.update_model (b : Buchdahl2) (nd vd : ℚ) : Buchdahl2 :=
  let c := buchdahl2_coefs b.omF b.omC nd vd
  { b with rind0 := nd, v1 := c.1, v2 := c.2 }

/-- Modelled from the spec: construction of `Buchdahl2` from `(nd, vd)`
(not under the source tree); the fitting lines default to d, F, C. -/
def Buchdahl2.of_nd_vd (nd vd : ℚ) : Buchdahl2 :=
  let wv0 := get_wv "d"
  let omF := omega (get_wv "F" - wv0)
  let omC := omega (get_wv "C" - wv0)
  let c := buchdahl2_coefs omF omC nd vd
  { wv0 := wv0, rind0 := nd, v1 := c.1, v2 := c.2, omF := omF, omC := omC }

/-- Modelled from the spec: direct evaluation of the quadratic model at a
wavelength in nanometers (`Buchdahl.calc_rindex`, not under the source
tree). -/
def Buchdahl2.calc_rindex (b : Buchdahl2) (wv_nm : ℚ) : ℚ :=
  let om := omega (wv_nm / 1000 - b.wv0)
  b.rind0 + b.v1 * om + b.v2 * om ^ 2

/-! ### ConstantIndex and ModelGlass

These two classes appear with their full Python source in a notebook in
the tree; the definitions below are translated from that source. -/

/-- Translated from the notebook source: `ConstantIndex(OpticalMedium)`
holds a label, a constant index `n` and a catalog name. -/
structure ConstantIndex where
  label : String
  n : ℚ
  catalog : String
  deriving DecidableEq

/-- Translated from the notebook source: `calc_rindex` ignores its
argument and returns `self.n`; it can never fail. -/
def ConstantIndex.calc_rindex (m : ConstantIndex) (_ : ℚ) :
    Except GlassError ℚ := .ok m.n

/-- Translated from the notebook source: `meas_rindex` ignores its
argument and returns `self.n`; it can never fail. -/
def ConstantIndex.meas_rindex (m : ConstantIndex) (_ : Token) :
    Except GlassError ℚ := .ok m.n

/-- Translated from the notebook source: `ModelGlass(OpticalMedium)` holds
a label, catalog name, the pair `(n, v)` and the fitted Buchdahl model
`bdhl_model = Buchdahl2(n, v)`. -/
structure ModelGlass where
  label : String
  catalog : String
  n : ℚ
  v : ℚ
  bdhl_model : Buchdahl2
  deriving DecidableEq

/-- Translated from the notebook source: the `ModelGlass` constructor
builds `Buchdahl2(nd, vd)` from the glass code pair. -/
def ModelGlass.of (nd vd : ℚ) (mat cat : String) : ModelGlass :=
  { label := mat, catalog := cat, n := nd, v := vd,
    bdhl_model := Buchdahl2.of_nd_vd nd vd }

/-- Translated from the notebook source:
`def glass_code(self): return glass_encode(self.n, self.v)`. -/
def ModelGlass.glass_code (g : ModelGlass) : String := glass_encode g.n g.v

/-- Translated from the notebook source:
`def calc_rindex(self, wv_nm): return self.bdhl_model.calc_rindex(wv_nm)`;
the Buchdahl evaluation is total, so this never fails. -/
def ModelGlass.calc_rindex (g : ModelGlass) (wv_nm : ℚ) :
    Except GlassError ℚ := .ok (g.bdhl_model.calc_rindex wv_nm)

/-- Modelled from the spec: `OpticalMedium.rindex` (not under the source
tree) resolves the token through the registry, then delegates to
`calc_rindex`; specialized here to `ModelGlass`. -/
def ModelGlass.rindex (g : ModelGlass) (t : Token) : Except GlassError ℚ :=
  (get_wavelength t).bind g.calc_rindex

/-- Translated from the notebook source:
`def meas_rindex(self, wvl): return self.rindex(wvl)` — a `ModelGlass`
answers a measured-index query with the calculated model value. -/
def ModelGlass.meas_rindex (g : ModelGlass) (t : Token) :
    Except GlassError ℚ := g.rindex t

/-- Translated from the notebook source: `update` stores the new pair and
calls `self.bdhl_model.update_model(nd, vd)`. -/
def ModelGlass.update (g : ModelGlass) (nd vd : ℚ) : ModelGlass :=
  { g with n := nd, v := vd, bdhl_model := g.bdhl_model.update_model nd vd }

/-- The `ModelGlass(1.517, 64.2, mat="my_bk7", cat="user")` instance built
in the notebook in the tree. -/
def my_bk7 : ModelGlass := ModelGlass.of 1.517 64.2 "my_bk7" "user"

/-! ### Interpolated / tabulated medium

`opticalmedium.InterpolatedMedium` is not under the source tree.  The
quickstart transcript in the tree constructs one from twelve
`(wavelength, index)` pairs spanning 3000–14000 nm with no extrapolation
argument — the printed `repr` lists the constructor state as exactly
`(label, wvls, rndx, kvals_wvls, kvals, cat)`, with no extrapolation
flag — and then evaluates `rindex(2500)`, below the tabulated range,
obtaining `array(2.6306544)`: the out-of-range query extrapolates and
succeeds under default construction.  The changelog in the tree confirms
(version 1.0.4): allow extrapolation for the InterpolatedMedium
refractive index interpolation function.  The interpolant is therefore
embedded as a total function on wavelengths.  The Python code
interpolates with a cubic scipy `interp1d`; the claims below depend only
on totality and on values at the tabulated knots, where every
interpolating scheme returns the tabulated value, so the interpolant is
realized piecewise-linearly here (extrapolating the end segments). -/

/-- Value at `w` of the line through points `p` and `q`. -/
def interpSeg (p q : ℚ × ℚ) (w : ℚ) : ℚ :=
  p.2 + (w - p.1) * (q.2 - p.2) / (q.1 - p.1)

/-- Piecewise-linear interpolant through a list of points with strictly
increasing first coordinates, extrapolating the first segment to the left
and the last segment to the right. -/
def interpPoints : List (ℚ × ℚ) → ℚ → ℚ
  | [], _ => 0
  | [p], _ => p.2
  | p :: q :: rest, w =>
    match rest with
    | [] => interpSeg p q w
    | r :: rs => if w ≤ q.1 then interpSeg p q w else interpPoints (q :: r :: rs) w

/-- Modelled from the spec: `opticalmedium.InterpolatedMedium` state (not
under the source tree): ordered tabulated wavelengths (nm) and indices,
as recorded by the printed `repr` in the quickstart transcript. -/
structure InterpolatedMedium where
  label : String
  wvls : List ℚ
  rndx : List ℚ
  catalog : String

/-- Modelled from the spec: the `pairs=` constructor of
`InterpolatedMedium`, which splits the pair list into the `wvls` and
`rndx` tables. -/
def InterpolatedMedium.fromPairs (label : String) (pairs : List (ℚ × ℚ))
    (cat : String) : InterpolatedMedium :=
  { label := label, wvls := pairs.map Prod.fst, rndx := pairs.map Prod.snd,
    catalog := cat }

/-- Modelled from the spec and the quickstart transcript:
`InterpolatedMedium.calc_rindex` interpolates the table and extrapolates
outside it; it never fails (the transcript evaluates `rindex(2500)` on a
3000–14000 nm table and receives a value). -/
def InterpolatedMedium.calc_rindex (m : InterpolatedMedium) (wv_nm : ℚ) :
    Except GlassError ℚ :=
  .ok (interpPoints (m.wvls.zip m.rndx) wv_nm)

/-- Modelled from the spec: `rindex` resolves the token, then delegates to
`calc_rindex`; specialized to `InterpolatedMedium`. -/
def InterpolatedMedium.rindex (m : InterpolatedMedium) (t : Token) :
    Except GlassError ℚ :=
  (get_wavelength t).bind m.calc_rindex

/-- The user-defined BD-2 infrared glass of the quickstart transcript:
twelve tabulated points from 3000 to 14000 nm. -/
def bd2 : InterpolatedMedium :=
  InterpolatedMedium.fromPairs "BD2"
    [(3000, 2.6266), (4000, 2.6210), (5000, 2.6173), (6000, 2.6142),
     (7000, 2.6117), (8000, 2.6088), (9000, 2.6055), (10000, 2.6023),
     (11000, 2.5983), (12000, 2.5942), (13000, 2.5892), (14000, 2.5843)]
    "LIGHTPATH"

/-! ### Catalog glass with a measured-index table -/

/-- Lookup in an association list keyed by tokens. -/
def lookupTok : List (Token × ℚ) → Token → Option ℚ
  | [], _ => none
  | p :: rest, t => if p.1 = t then some p.2 else lookupTok rest t

/-- Modelled from the spec: the slice of a catalog glass
(`glass.GlassPandas`, not under the source tree) the measured-index
claims need — its measured refractive-index table, keyed by spectral
line or by measurement wavelength, as printed for the Hoya glass FCD1 in
the pandas-intro page of the tree. -/
structure GlassPandas where
  gname : String
  catalog : String
  rindx_table : List (Token × ℚ)

/-- Modelled from the spec: `meas_rindex` of a catalog glass returns the
directly tabulated measured value when the key is present and fails
(`NoMeasuredData` in the taxonomy of the spec) when it is absent; it does
not fall back to the dispersion formula. -/
def GlassPandas.meas_rindex (g : GlassPandas) (t : Token) :
    Except GlassError ℚ :=
  match lookupTok g.rindx_table t with
  | some n => .ok n
  | none => .error .noMeasuredData

/-- The measured refractive indices of Hoya FCD1, exactly as printed in
the pandas-intro page of the tree. -/
def fcd1 : GlassPandas :=
  { gname := "FCD1", catalog := "Hoya",
    rindx_table :=
      [(.wv 1529.6, 1.48598), (.wv 1128.64, 1.48907), (.line "t", 1.49008),
       (.line "s", 1.49182), (.line "A\x27", 1.493), (.line "r", 1.49408),
       (.line "C", 1.49514), (.line "C\x27", 1.49543),
       (.line "He-Ne", 1.49571), (.line "D", 1.49694), (.line "d", 1.497),
       (.line "e", 1.49845), (.line "F", 1.50123), (.line "F\x27", 1.50157),
       (.line "g", 1.50451), (.line "h", 1.50721), (.line "i", 1.51175)] }

/-! ## Helper lemmas -/

/-- The quadratic Buchdahl model returns its reference index exactly at
the reference wavelength, where the chromatic coordinate vanishes. -/
lemma Buchdahl2.calc_rindex_at_ref (b : Buchdahl2) (w : ℚ)
    (h : w / 1000 - b.wv0 = 0) : b.calc_rindex w = b.rind0 := by
  simp only [Buchdahl2.calc_rindex, omega, h]
  norm_num

/-- Evaluation of the `my_bk7` model glass at the d line: the token
resolves to 587.5618 nm, which is the Buchdahl reference wavelength, so
the model returns its reference index 1.517. -/
lemma my_bk7_rindex_d : my_bk7.rindex (Token.line "d") = Except.ok 1.517 := by
  show (get_wavelength (Token.line "d")).bind my_bk7.calc_rindex = _
  rw [show get_wavelength (Token.line "d") = Except.ok (587.5618 : ℚ) from rfl]
  show Except.ok (my_bk7.bdhl_model.calc_rindex 587.5618) = _
  rw [Buchdahl2.calc_rindex_at_ref my_bk7.bdhl_model 587.5618
    (by rw [show my_bk7.bdhl_model.wv0 = (587.5618 : ℚ) / 1000 from rfl]
        exact sub_self _)]
  rfl

/-! ## Theorems for the claims -/

/-- Claim C1, amended (the claim as frozen says the second component is
`PCd = (nd - nC)/(nF - nC)` with value ≈ 0.3076; the transcript in the
tree records 0.6923634296510195, so the function returns
`PFd = (nF - nd)/(nF - nC)`): for any three indices,
`calc_glass_constants nd nF nC` is the pair
`((nd - 1)/(nF - nC), (nF - nd)/(nF - nC))`, and at the documented
N-BK7 indices the first component is within 0.01 of 64.17 and the second
within 0.001 of 0.6924. -/
theorem C1_calc_glass_constants :
    (∀ nd nF nC : ℚ, calc_glass_constants nd nF nC =
        ((nd - 1) / (nF - nC), (nF - nd) / (nF - nC))) ∧
    |(calc_glass_constants 1.5168000345005885 1.5223762897312285
        1.5143223472613747).1 - 64.17| ≤ 1/100 ∧
    |(calc_glass_constants 1.5168000345005885 1.5223762897312285
        1.5143223472613747).2 - 0.6924| ≤ 1/1000 := by
  refine ⟨fun nd nF nC => rfl, ?_, ?_⟩ <;>
    · rw [abs_le]
      constructor <;> norm_num [calc_glass_constants]

/-- Claim C1, counterexample to the claim as frozen: at the N-BK7-like
indices the claim itself supplies, the second component returned by
`calc_glass_constants` is not `(nd - nC)/(nF - nC)`. -/
theorem C1_counterexample :
    (calc_glass_constants 1.5168 1.52238 1.51432).2 ≠
      (1.5168 - 1.51432) / (1.52238 - 1.51432) := by
  norm_num [calc_glass_constants]

/-- Claim C2, amended (the claim as frozen says extrapolation is gated by
a constructor flag, default disabled, out-of-range queries failing with
`WavelengthOutOfRange`; the quickstart transcript and the 1.0.4 changelog
entry in the tree show the medium extrapolates unconditionally and has no
such flag): a refractive-index query on an `InterpolatedMedium` always
succeeds — at `λ_min` and `λ_max` it returns the tabulated endpoint
values, and outside the range it returns an extrapolated value. -/
theorem C2_interpolated_medium :
    (∀ (m : InterpolatedMedium) (w : ℚ), ∃ q : ℚ,
        m.calc_rindex w = Except.ok q) ∧
    InterpolatedMedium.calc_rindex bd2 3000 = Except.ok 2.6266 ∧
    InterpolatedMedium.calc_rindex bd2 14000 = Except.ok 2.5843 := by
  refine ⟨fun m w => ⟨_, rfl⟩, ?_, ?_⟩ <;>
    norm_num [bd2, InterpolatedMedium.fromPairs, InterpolatedMedium.calc_rindex,
      List.zip, List.zipWith, List.map, interpPoints, interpSeg]

/-- Claim C2, counterexample to the claim as frozen: the BD-2 medium of
the quickstart transcript is built with default settings from a table
spanning 3000–14000 nm, yet the query at 2500 nm (strictly below range)
does not fail with `WavelengthOutOfRange` — it returns an extrapolated
value. -/
theorem C2_counterexample :
    InterpolatedMedium.rindex bd2 (Token.wv 2500) ≠
      Except.error GlassError.wavelengthOutOfRange ∧
    InterpolatedMedium.rindex bd2 (Token.wv 2500) = Except.ok 2.6294 := by
  have h : InterpolatedMedium.rindex bd2 (Token.wv 2500) =
      Except.ok (2.6294 : ℚ) := by
    show (get_wavelength (Token.wv 2500)).bind bd2.calc_rindex = _
    rw [show get_wavelength (Token.wv 2500) = Except.ok (2500 : ℚ) from rfl]
    show InterpolatedMedium.calc_rindex bd2 2500 = _
    norm_num [bd2, InterpolatedMedium.fromPairs, InterpolatedMedium.calc_rindex,
      List.zip, List.zipWith, List.map, interpPoints, interpSeg]
  exact ⟨fun hc => Except.noConfusion (h ▸ hc), h⟩

/-- Claim C3, amended (the claim as frozen says each scaled quantity is
truncated to an integer; the documented outputs, including the one the
claim itself quotes, force rounding to the nearest integer instead):
`glass_code` formats the pair by rounding `1000·(nd − 1)` and `10·Vd` to
the nearest integers, independent of the formula family, and
`(1.5168, 64.17)` yields `"517.642"`. -/
theorem C3_glass_code :
    (∀ g : ModelGlass, g.glass_code = glass_encode g.n g.v) ∧
    glass_encode 1.5168 64.17 = "517.642" ∧
    my_bk7.glass_code = "517.642" := by
  have h1 : (⌊(1000 : ℚ) * (1.5168 - 1) + 1/2⌋ : ℤ) = 517 := by
    rw [Int.floor_eq_iff]
    constructor <;> norm_num
  have h2 : (⌊(10 : ℚ) * 64.17 + 1/2⌋ : ℤ) = 642 := by
    rw [Int.floor_eq_iff]
    constructor <;> norm_num
  have h3 : (⌊(1000 : ℚ) * (1.517 - 1) + 1/2⌋ : ℤ) = 517 := by
    rw [Int.floor_eq_iff]
    constructor <;> norm_num
  have h4 : (⌊(10 : ℚ) * 64.2 + 1/2⌋ : ℤ) = 642 := by
    rw [Int.floor_eq_iff]
    constructor <;> norm_num
  refine ⟨fun g => rfl, ?_, ?_⟩
  · show toString (⌊(1000 : ℚ) * (1.5168 - 1) + 1/2⌋ : ℤ) ++ "." ++
        toString (⌊(10 : ℚ) * 64.17 + 1/2⌋ : ℤ) = "517.642"
    rw [h1, h2]
    rfl
  · show toString (⌊(1000 : ℚ) * (1.517 - 1) + 1/2⌋ : ℤ) ++ "." ++
        toString (⌊(10 : ℚ) * 64.2 + 1/2⌋ : ℤ) = "517.642"
    rw [h3, h4]
    rfl

/-- Claim C3, counterexample to the claim as frozen: at the input the
claim itself supplies, truncating as the claim describes yields
`"516.641"`, not the documented `"517.642"` that `glass_encode`
produces. -/
theorem C3_counterexample :
    glass_encode 1.5168 64.17 = "517.642" ∧
    glass_encode_truncated 1.5168 64.17 = "516.641" := by
  have h1 : (⌊(1000 : ℚ) * (1.5168 - 1) + 1/2⌋ : ℤ) = 517 := by
    rw [Int.floor_eq_iff]
    constructor <;> norm_num
  have h2 : (⌊(10 : ℚ) * 64.17 + 1/2⌋ : ℤ) = 642 := by
    rw [Int.floor_eq_iff]
    constructor <;> norm_num
  have h5 : (⌊(1000 : ℚ) * (1.5168 - 1)⌋ : ℤ) = 516 := by
    rw [Int.floor_eq_iff]
    constructor <;> norm_num
  have h6 : (⌊(10 : ℚ) * 64.17⌋ : ℤ) = 641 := by
    rw [Int.floor_eq_iff]
    constructor <;> norm_num
  constructor
  · show toString (⌊(1000 : ℚ) * (1.5168 - 1) + 1/2⌋ : ℤ) ++ "." ++
        toString (⌊(10 : ℚ) * 64.17 + 1/2⌋ : ℤ) = "517.642"
    rw [h1, h2]
    rfl
  · show toString (⌊(1000 : ℚ) * (1.5168 - 1)⌋ : ℤ) ++ "." ++
        toString (⌊(10 : ℚ) * 64.17⌋ : ℤ) = "516.641"
    rw [h5, h6]
    rfl

/-- Claim C4 (confirmed): whenever the registry resolves a token to a
wavelength, the token path `rindex` of a model glass equals the direct
formula evaluation `Buchdahl2.calc_rindex` at that wavelength. -/
theorem C4_rindex_registry (g : ModelGlass) (t : Token) (w : ℚ)
    (h : get_wavelength t = Except.ok w) :
    g.rindex t = Except.ok (g.bdhl_model.calc_rindex w) := by
  unfold ModelGlass.rindex
  rw [h]
  rfl

/-- Witness for C4 at a concrete input: the label d resolves to
587.5618 nm and the two evaluation paths agree there for `my_bk7`. -/
theorem C4_witness :
    get_wavelength (Token.line "d") = Except.ok 587.5618 ∧
    my_bk7.rindex (Token.line "d") =
      Except.ok (my_bk7.bdhl_model.calc_rindex 587.5618) :=
  ⟨rfl, C4_rindex_registry my_bk7 (Token.line "d") 587.5618 rfl⟩

/-- Claim C5, amended (the claim as frozen quantifies over every optical
medium; the notebook source in the tree shows `ModelGlass.meas_rindex`
returning `self.rindex(wvl)`, the calculated model value): a catalog
glass returns the directly tabulated measured value when present and
fails with `NoMeasuredData` when absent, but `ModelGlass.meas_rindex`
delegates to `rindex` and so returns the calculated index. -/
theorem C5_meas_rindex :
    GlassPandas.meas_rindex fcd1 (Token.line "F") = Except.ok 1.50123 ∧
    GlassPandas.meas_rindex fcd1 (Token.line "u") =
      Except.error GlassError.noMeasuredData ∧
    (∀ (g : ModelGlass) (t : Token), g.meas_rindex t = g.rindex t) :=
  ⟨rfl, rfl, fun _ _ => rfl⟩

/-- Claim C5, counterexample to the claim as frozen: `my_bk7` has no
measured data at all, yet `meas_rindex` at the d line does not fail with
`NoMeasuredData` — it silently returns the calculated model value
1.517. -/
theorem C5_counterexample :
    my_bk7.meas_rindex (Token.line "d") = Except.ok 1.517 ∧
    my_bk7.meas_rindex (Token.line "d") ≠
      Except.error GlassError.noMeasuredData := by
  have h : my_bk7.meas_rindex (Token.line "d") = Except.ok (1.517 : ℚ) :=
    my_bk7_rindex_d
  exact ⟨h, fun hc => Except.noConfusion (h ▸ hc)⟩

/-- Claim C6 (confirmed): refitting a Buchdahl two-term model twice with
identical `(nd, vd)` arguments yields exactly the same state — in
particular identical coefficients ν1 and ν2 — as a single refit, both at
the `Buchdahl2` level and through `ModelGlass.update`. -/
theorem C6_update_model_idempotent (b : Buchdahl2) (g : ModelGlass)
    (nd vd : ℚ) :
    ((b.update_model nd vd).update_model nd vd).v1 =
      (b.update_model nd vd).v1 ∧
    ((b.update_model nd vd).update_model nd vd).v2 =
      (b.update_model nd vd).v2 ∧
    (b.update_model nd vd).update_model nd vd = b.update_model nd vd ∧
    (g.update nd vd).update nd vd = g.update nd vd :=
  ⟨rfl, rfl, rfl, rfl⟩

/-- Claim C7 (confirmed): the Buchdahl model glass built from
`(nd, vd) = (1.517, 64.2)` reproduces `nd` at the d spectral line within
1e-6 (exactly, in fact: the chromatic coordinate vanishes at the
reference line). -/
theorem C7_model_glass_nd :
    ∃ q : ℚ, my_bk7.rindex (Token.line "d") = Except.ok q ∧
      |q - 1.517| ≤ 1/1000000 :=
  ⟨1.517, my_bk7_rindex_d, by norm_num⟩

/-- Claim C8 (confirmed): the registry resolves the known spectral-line
labels to the documented nanometer values exactly; in particular d, F, C
(values stated in the spec) and D (value recorded by a notebook in the
tree). -/
theorem C8_spectral_lines :
    get_wavelength (Token.line "d") = Except.ok 587.5618 ∧
    get_wavelength (Token.line "F") = Except.ok 486.1327 ∧
    get_wavelength (Token.line "C") = Except.ok 656.2725 ∧
    get_wavelength (Token.line "D") = Except.ok 589.2938 :=
  ⟨rfl, rfl, rfl, rfl⟩

/-- Claim C10 (confirmed): a `ConstantIndex` medium returns its stored
index from both `calc_rindex` and `meas_rindex` for every wavelength and
every token, never failing with any error. -/
theorem C10_constant_index (nd : ℚ) (lbl cat : String) (w : ℚ) (t : Token) :
    (ConstantIndex.mk lbl nd cat).calc_rindex w = Except.ok nd ∧
    (ConstantIndex.mk lbl nd cat).meas_rindex t = Except.ok nd :=
  ⟨rfl, rfl⟩

end Opticalglass
